import Mathlib

/-
Shallow embedding of src/page_objects/playwright_wrapper.py.

The underlying browser-driving engine (Playwright) is external to the
repository; its primitives are modelled as oracles: each primitive call is a
field of a model structure giving, per argument tuple, the outcome the engine
would produce (success value, timeout error, or other error).  Filesystem and
logging side effects are threaded through an explicit `World` state.
-/

namespace PW

/-- Python exception values in scope in playwright_wrapper.py: the three
custom exceptions, AttributeError, Playwright's TimeoutError, and any other
exception (carrying its message). -/
inductive Exc where
  | elementNotFound (msg : String)
  | actionFailed (msg : String)
  | navigationError (msg : String)
  | attributeError (msg : String)
  | playwrightTimeout (msg : String)
  | pythonError (msg : String)
deriving DecidableEq

/-- The message a Python f-string interpolation of the exception would show. -/
def Exc.message : Exc → String
  | .elementNotFound m => m
  | .actionFailed m => m
  | .navigationError m => m
  | .attributeError m => m
  | .playwrightTimeout m => m
  | .pythonError m => m

/-- Outcome of one underlying-engine primitive call: success, a
PlaywrightTimeoutError (with its message), or any other exception (with its
message). -/
inductive PrimOutcome (A : Type) where
  | ok (value : A)
  | timeout (msg : String)
  | err (msg : String)
deriving DecidableEq

/-- True when an `Except` result is a success. -/
def okFlag : Except Exc A → Bool
  | Except.ok _ => true
  | Except.error _ => false

/-- Observable side-effect state threaded through every operation: the log
file lines, the number of engine calls issued, the number of diagnostic
(error) screenshot attempts made by the interceptor, the screenshot files
written, the pytest_check soft-assertion records, and a clock standing for
`datetime.now()` timestamps. -/
structure World where
  log : List String
  engineCalls : Nat
  errorShotAttempts : Nat
  savedShots : List String
  softChecks : List (Bool × String)
  clock : Nat
deriving DecidableEq

def World.empty : World :=
  { log := [], engineCalls := 0, errorShotAttempts := 0, savedShots := [],
    softChecks := [], clock := 0 }

/-- Append one log line (the Logger writes info and error lines to one file). -/
def World.logLine (w : World) (s : String) : World :=
  { w with log := w.log ++ [s] }

/-- Record that one call into the underlying engine was issued. -/
def World.engineCall (w : World) : World :=
  { w with engineCalls := w.engineCalls + 1 }

/-- One `datetime.now()` timestamp was taken. -/
def World.tick (w : World) : World :=
  { w with clock := w.clock + 1 }

/-- A screenshot file was written. -/
def World.saveShot (w : World) (p : String) : World :=
  { w with savedShots := w.savedShots ++ [p] }

/-- One diagnostic screenshot capture was attempted by the interceptor. -/
def World.shotAttempt (w : World) : World :=
  { w with errorShotAttempts := w.errorShotAttempts + 1 }

/-- pytest_check recorded a soft comparison (passed?, failure message). -/
def World.recordCheck (w : World) (passed : Bool) (m : String) : World :=
  { w with softChecks := w.softChecks ++ [(passed, m)] }

/-- Python str() of an Optional[str]. -/
def pyOpt : Option String → String
  | some s => s
  | none => "None"

/-- Python str() of a bool. -/
def pyBool : Bool → String
  | true => "True"
  | false => "False"

/-- Oracle model of a Playwright Locator: its printed form, Python
truthiness, and the outcome of each primitive the wrapper invokes on it,
as a function of the arguments the wrapper passes. -/
structure LocatorModel where
  name : String
  truthy : Bool
  clickR : Nat → PrimOutcome Unit
  fillR : String → Nat → PrimOutcome Unit
  hoverR : Nat → PrimOutcome Unit
  typeR : String → Nat → PrimOutcome Unit
  pressR : String → Nat → PrimOutcome Unit
  selectOptionR : String → Nat → PrimOutcome Unit
  textContentR : Nat → PrimOutcome (Option String)
  getAttributeR : String → Nat → PrimOutcome (Option String)
  waitForR : String → Nat → PrimOutcome Unit
  isVisibleR : Nat → PrimOutcome Bool
  isHiddenR : Nat → PrimOutcome Bool
  isEnabledR : Nat → PrimOutcome Bool
  screenshotR : String → PrimOutcome Unit

/-- The Element wrapper's state: the wrapped locator, the owning page's
`page.screenshot` outcome (used by the failure interceptor), and the
screenshot directory. -/
structure Element where
  locator : LocatorModel
  pageShot : PrimOutcome Unit
  screenshots_dir : String

/-- Oracle model of a Playwright Page: printed form and the outcome of each
page-level primitive the wrapper invokes. -/
structure PageModel where
  name : String
  locatorR : String → PrimOutcome LocatorModel
  waitForUrlR : String → Nat → PrimOutcome Unit
  waitForSelectorR : String → String → Nat → PrimOutcome Unit
  screenshotR : PrimOutcome Unit

/-- The BasePage wrapper's state. -/
structure BasePage where
  page : PageModel
  screenshots_dir : String

/-- Element._valid_methods from the source. -/
def Element.valid_methods : List String :=
  ["click", "fill", "hover", "type", "press", "select_option", "get_text",
   "get_attribute", "wait_for", "is_visible", "is_hidden", "is_enabled",
   "screenshot"]

/-- Element._suggest_method: formats the result of
difflib.get_close_matches(name, _valid_methods, n=1).  The difflib call is
external library code, modelled as the oracle argument `closeMatch`. -/
def Element.suggest_method (closeMatch : Option String) : String :=
  match closeMatch with
  | some s => "Did you mean: " ++ s ++ "()?"
  | none => "No similar method found."

/-- The error message Element.__getattr__ builds for a name outside the
valid-method set. -/
def unsupportedMsg (suggest : String → Option String) (name : String) : String :=
  "Element has no method '" ++ name ++ "'. " ++ Element.suggest_method (suggest name)

/-- Element.__getattr__: names outside _valid_methods raise AttributeError
immediately (after logging); names inside the set resolve to the ordinary
method (modelled as plain success).  `suggest` is the
difflib.get_close_matches oracle. -/
def Element.getattrDispatch (suggest : String → Option String) (name : String)
    (w : World) : Except Exc Unit × World :=
  if name ∈ Element.valid_methods then (Except.ok (), w)
  else
    (Except.error (Exc.attributeError (unsupportedMsg suggest name)),
     w.logLine (unsupportedMsg suggest name))

/-- The except-branch of the screenshot_on_error decorator: makedirs, build a
timestamped path, and if a page is present attempt page.screenshot (its
failure only logged); finally log the exception.  `sh` is None when the
wrapped object has no `page` attribute, else the page.screenshot outcome. -/
def diagnosticCapture (methodName : String) (sh : Option (PrimOutcome Unit))
    (dir : String) (e : Exc) (w : World) : World :=
  let path := dir ++ "/error_" ++ toString w.clock ++ ".png"
  let w1 := w.tick
  let w2 :=
    match sh with
    | none => w1
    | some shot =>
      let wa := w1.shotAttempt.engineCall
      match shot with
      | PrimOutcome.ok _ =>
          (wa.saveShot path).logLine ("Screenshot captured: " ++ path)
      | PrimOutcome.timeout m =>
          wa.logLine ("Failed to capture screenshot: " ++ m)
      | PrimOutcome.err m =>
          wa.logLine ("Failed to capture screenshot: " ++ m)
  w2.logLine ("Exception in " ++ methodName ++ ": " ++ Exc.message e)

/-- The screenshot_on_error decorator: run the wrapped method; on success
return its result unchanged; on any exception run the diagnostic capture and
re-raise the original exception. -/
def screenshot_on_error (methodName : String) (sh : Option (PrimOutcome Unit))
    (dir : String) (op : World → Except Exc A × World) (w : World) :
    Except Exc A × World :=
  match op w with
  | (Except.ok a, w1) => (Except.ok a, w1)
  | (Except.error e, w1) => (Except.error e, diagnosticCapture methodName sh dir e w1)

/-- Body of Element.click (inside the decorator).  Success returns self,
modelled as Unit. -/
def Element.click_body (el : Element) (timeout : Nat) (w : World) :
    Except Exc Unit × World :=
  let n := el.locator.name
  let w := w.engineCall
  match el.locator.clickR timeout with
  | PrimOutcome.ok _ => (Except.ok (), w.logLine ("Clicked element: " ++ n))
  | PrimOutcome.timeout _ =>
      (Except.error (Exc.actionFailed ("Timeout clicking element: " ++ n)),
       w.logLine ("Timeout clicking element: " ++ n))
  | PrimOutcome.err m =>
      (Except.error (Exc.actionFailed ("Failed to click element: " ++ m)),
       w.logLine ("Failed to click element: " ++ m))

/-- Element.click with its decorator.  The Python signature is
`click(self, timeout: int = 10000)`. -/
def Element.click (el : Element) (timeout : Nat) : World → Except Exc Unit × World :=
  screenshot_on_error "click" (some el.pageShot) el.screenshots_dir
    (Element.click_body el timeout)

/-- Body of Element.fill. -/
def Element.fill_body (el : Element) (value : String) (timeout : Nat) (w : World) :
    Except Exc Unit × World :=
  let n := el.locator.name
  let w := w.engineCall
  match el.locator.fillR value timeout with
  | PrimOutcome.ok _ =>
      (Except.ok (), w.logLine ("Filled element: " ++ n ++ " with value: " ++ value))
  | PrimOutcome.timeout _ =>
      (Except.error (Exc.actionFailed ("Timeout filling element: " ++ n)),
       w.logLine ("Timeout filling element: " ++ n))
  | PrimOutcome.err m =>
      (Except.error (Exc.actionFailed ("Failed to fill element: " ++ m)),
       w.logLine ("Failed to fill element: " ++ m))

/-- Element.fill with its decorator (`fill(self, value, timeout=10000)`). -/
def Element.fill (el : Element) (value : String) (timeout : Nat) :
    World → Except Exc Unit × World :=
  screenshot_on_error "fill" (some el.pageShot) el.screenshots_dir
    (Element.fill_body el value timeout)

/-- Body of Element.hover. -/
def Element.hover_body (el : Element) (timeout : Nat) (w : World) :
    Except Exc Unit × World :=
  let n := el.locator.name
  let w := w.engineCall
  match el.locator.hoverR timeout with
  | PrimOutcome.ok _ => (Except.ok (), w.logLine ("Hovered over element: " ++ n))
  | PrimOutcome.timeout _ =>
      (Except.error (Exc.actionFailed ("Timeout hovering element: " ++ n)),
       w.logLine ("Timeout hovering element: " ++ n))
  | PrimOutcome.err m =>
      (Except.error (Exc.actionFailed ("Failed to hover element: " ++ m)),
       w.logLine ("Failed to hover element: " ++ m))

/-- Element.hover with its decorator (`hover(self, timeout=10000)`). -/
def Element.hover (el : Element) (timeout : Nat) : World → Except Exc Unit × World :=
  screenshot_on_error "hover" (some el.pageShot) el.screenshots_dir
    (Element.hover_body el timeout)

/-- Body of Element.type. -/
def Element.type_body (el : Element) (text : String) (timeout : Nat) (w : World) :
    Except Exc Unit × World :=
  let n := el.locator.name
  let w := w.engineCall
  match el.locator.typeR text timeout with
  | PrimOutcome.ok _ =>
      (Except.ok (), w.logLine ("Typed '" ++ text ++ "' into element: " ++ n))
  | PrimOutcome.timeout _ =>
      (Except.error (Exc.actionFailed ("Timeout typing into element: " ++ n)),
       w.logLine ("Timeout typing into element: " ++ n))
  | PrimOutcome.err m =>
      (Except.error (Exc.actionFailed ("Failed to type into element: " ++ m)),
       w.logLine ("Failed to type into element: " ++ m))

/-- Element.type with its decorator (`type(self, text, timeout=10000)`). -/
def Element.type (el : Element) (text : String) (timeout : Nat) :
    World → Except Exc Unit × World :=
  screenshot_on_error "type" (some el.pageShot) el.screenshots_dir
    (Element.type_body el text timeout)

/-- Body of Element.press. -/
def Element.press_body (el : Element) (key : String) (timeout : Nat) (w : World) :
    Except Exc Unit × World :=
  let n := el.locator.name
  let w := w.engineCall
  match el.locator.pressR key timeout with
  | PrimOutcome.ok _ =>
      (Except.ok (), w.logLine ("Pressed '" ++ key ++ "' on element: " ++ n))
  | PrimOutcome.timeout _ =>
      (Except.error (Exc.actionFailed ("Timeout pressing key on element: " ++ n)),
       w.logLine ("Timeout pressing key on element: " ++ n))
  | PrimOutcome.err m =>
      (Except.error (Exc.actionFailed ("Failed to press key on element: " ++ m)),
       w.logLine ("Failed to press key on element: " ++ m))

/-- Element.press with its decorator (`press(self, key, timeout=10000)`). -/
def Element.press (el : Element) (key : String) (timeout : Nat) :
    World → Except Exc Unit × World :=
  screenshot_on_error "press" (some el.pageShot) el.screenshots_dir
    (Element.press_body el key timeout)

/-- Body of Element.select_option. -/
def Element.select_option_body (el : Element) (value : String) (timeout : Nat)
    (w : World) : Except Exc Unit × World :=
  let n := el.locator.name
  let w := w.engineCall
  match el.locator.selectOptionR value timeout with
  | PrimOutcome.ok _ =>
      (Except.ok (), w.logLine ("Selected option '" ++ value ++ "' in element: " ++ n))
  | PrimOutcome.timeout _ =>
      (Except.error (Exc.actionFailed ("Timeout selecting option in element: " ++ n)),
       w.logLine ("Timeout selecting option in element: " ++ n))
  | PrimOutcome.err m =>
      (Except.error (Exc.actionFailed ("Failed to select option: " ++ m)),
       w.logLine ("Failed to select option: " ++ m))

/-- Element.select_option with its decorator
(`select_option(self, value, timeout=10000)`). -/
def Element.select_option (el : Element) (value : String) (timeout : Nat) :
    World → Except Exc Unit × World :=
  screenshot_on_error "select_option" (some el.pageShot) el.screenshots_dir
    (Element.select_option_body el value timeout)

/-- Body of Element.get_text.  Playwright text_content returns Optional[str]. -/
def Element.get_text_body (el : Element) (timeout : Nat) (w : World) :
    Except Exc (Option String) × World :=
  let n := el.locator.name
  let w := w.engineCall
  match el.locator.textContentR timeout with
  | PrimOutcome.ok text =>
      (Except.ok text,
       w.logLine ("Got text from element: " ++ n ++ " -> " ++ pyOpt text))
  | PrimOutcome.timeout _ =>
      (Except.error (Exc.actionFailed ("Timeout getting text from element: " ++ n)),
       w.logLine ("Timeout getting text from element: " ++ n))
  | PrimOutcome.err m =>
      (Except.error (Exc.actionFailed ("Failed to get text: " ++ m)),
       w.logLine ("Failed to get text: " ++ m))

/-- Element.get_text with its decorator (`get_text(self, timeout=10000)`). -/
def Element.get_text (el : Element) (timeout : Nat) :
    World → Except Exc (Option String) × World :=
  screenshot_on_error "get_text" (some el.pageShot) el.screenshots_dir
    (Element.get_text_body el timeout)

/-- Body of Element.get_attribute. -/
def Element.get_attribute_body (el : Element) (attr : String) (timeout : Nat)
    (w : World) : Except Exc (Option String) × World :=
  let n := el.locator.name
  let w := w.engineCall
  match el.locator.getAttributeR attr timeout with
  | PrimOutcome.ok value =>
      (Except.ok value,
       w.logLine ("Got attribute '" ++ attr ++ "' from element: " ++ n ++ " -> " ++ pyOpt value))
  | PrimOutcome.timeout _ =>
      (Except.error (Exc.actionFailed ("Timeout getting attribute from element: " ++ n)),
       w.logLine ("Timeout getting attribute from element: " ++ n))
  | PrimOutcome.err m =>
      (Except.error (Exc.actionFailed ("Failed to get attribute: " ++ m)),
       w.logLine ("Failed to get attribute: " ++ m))

/-- Element.get_attribute with its decorator
(`get_attribute(self, name, timeout=10000)`). -/
def Element.get_attribute (el : Element) (attr : String) (timeout : Nat) :
    World → Except Exc (Option String) × World :=
  screenshot_on_error "get_attribute" (some el.pageShot) el.screenshots_dir
    (Element.get_attribute_body el attr timeout)

/-- Body of Element.wait_for. -/
def Element.wait_for_body (el : Element) (state : String) (timeout : Nat)
    (w : World) : Except Exc Unit × World :=
  let n := el.locator.name
  let w := w.engineCall
  match el.locator.waitForR state timeout with
  | PrimOutcome.ok _ =>
      (Except.ok (), w.logLine ("Waited for element: " ++ n ++ " to be " ++ state))
  | PrimOutcome.timeout _ =>
      (Except.error (Exc.actionFailed
         ("Timeout waiting for element: " ++ n ++ " to be " ++ state)),
       w.logLine ("Timeout waiting for element: " ++ n ++ " to be " ++ state))
  | PrimOutcome.err m =>
      (Except.error (Exc.actionFailed ("Failed to wait for element: " ++ m)),
       w.logLine ("Failed to wait for element: " ++ m))

/-- Element.wait_for with its decorator
(`wait_for(self, state="visible", timeout=10000)`). -/
def Element.wait_for (el : Element) (state : String) (timeout : Nat) :
    World → Except Exc Unit × World :=
  screenshot_on_error "wait_for" (some el.pageShot) el.screenshots_dir
    (Element.wait_for_body el state timeout)

/-- Body of Element.is_visible. -/
def Element.is_visible_body (el : Element) (timeout : Nat) (w : World) :
    Except Exc Bool × World :=
  let n := el.locator.name
  let w := w.engineCall
  match el.locator.isVisibleR timeout with
  | PrimOutcome.ok visible =>
      (Except.ok visible,
       w.logLine ("Element " ++ n ++ " is visible: " ++ pyBool visible))
  | PrimOutcome.timeout _ =>
      (Except.error (Exc.actionFailed ("Timeout checking visibility for element: " ++ n)),
       w.logLine ("Timeout checking visibility for element: " ++ n))
  | PrimOutcome.err m =>
      (Except.error (Exc.actionFailed ("Failed to check visibility: " ++ m)),
       w.logLine ("Failed to check visibility: " ++ m))

/-- Element.is_visible with its decorator (`is_visible(self, timeout=10000)`). -/
def Element.is_visible (el : Element) (timeout : Nat) :
    World → Except Exc Bool × World :=
  screenshot_on_error "is_visible" (some el.pageShot) el.screenshots_dir
    (Element.is_visible_body el timeout)

/-- Body of Element.is_hidden. -/
def Element.is_hidden_body (el : Element) (timeout : Nat) (w : World) :
    Except Exc Bool × World :=
  let n := el.locator.name
  let w := w.engineCall
  match el.locator.isHiddenR timeout with
  | PrimOutcome.ok hidden =>
      (Except.ok hidden,
       w.logLine ("Element " ++ n ++ " is hidden: " ++ pyBool hidden))
  | PrimOutcome.timeout _ =>
      (Except.error (Exc.actionFailed ("Timeout checking hidden for element: " ++ n)),
       w.logLine ("Timeout checking hidden for element: " ++ n))
  | PrimOutcome.err m =>
      (Except.error (Exc.actionFailed ("Failed to check hidden: " ++ m)),
       w.logLine ("Failed to check hidden: " ++ m))

/-- Element.is_hidden with its decorator (`is_hidden(self, timeout=10000)`). -/
def Element.is_hidden (el : Element) (timeout : Nat) :
    World → Except Exc Bool × World :=
  screenshot_on_error "is_hidden" (some el.pageShot) el.screenshots_dir
    (Element.is_hidden_body el timeout)

/-- Body of Element.is_enabled. -/
def Element.is_enabled_body (el : Element) (timeout : Nat) (w : World) :
    Except Exc Bool × World :=
  let n := el.locator.name
  let w := w.engineCall
  match el.locator.isEnabledR timeout with
  | PrimOutcome.ok enabled =>
      (Except.ok enabled,
       w.logLine ("Element " ++ n ++ " is enabled: " ++ pyBool enabled))
  | PrimOutcome.timeout _ =>
      (Except.error (Exc.actionFailed ("Timeout checking enabled for element: " ++ n)),
       w.logLine ("Timeout checking enabled for element: " ++ n))
  | PrimOutcome.err m =>
      (Except.error (Exc.actionFailed ("Failed to check enabled: " ++ m)),
       w.logLine ("Failed to check enabled: " ++ m))

/-- Element.is_enabled with its decorator (`is_enabled(self, timeout=10000)`). -/
def Element.is_enabled (el : Element) (timeout : Nat) :
    World → Except Exc Bool × World :=
  screenshot_on_error "is_enabled" (some el.pageShot) el.screenshots_dir
    (Element.is_enabled_body el timeout)

/-- The locator.screenshot call of Element.screenshot at a resolved path. -/
def Element.screenshot_go (el : Element) (p : String) (w : World) :
    Except Exc String × World :=
  let w2 := w.engineCall
  match el.locator.screenshotR p with
  | PrimOutcome.ok _ =>
      (Except.ok p, (w2.saveShot p).logLine ("Screenshot of element saved: " ++ p))
  | PrimOutcome.timeout m =>
      (Except.error (Exc.actionFailed ("Failed to take element screenshot: " ++ m)),
       w2.logLine ("Failed to take element screenshot: " ++ m))
  | PrimOutcome.err m =>
      (Except.error (Exc.actionFailed ("Failed to take element screenshot: " ++ m)),
       w2.logLine ("Failed to take element screenshot: " ++ m))

/-- Body of Element.screenshot: build the path (timestamped when none given),
call locator.screenshot, return the path; any exception becomes ActionFailed.
The Python signature has no timeout parameter:
`screenshot(self, path=None, full_page=True)`. -/
def Element.screenshot_body (el : Element) (path? : Option String) (w : World) :
    Except Exc String × World :=
  match path? with
  | some q => Element.screenshot_go el q w
  | none =>
      Element.screenshot_go el
        (el.screenshots_dir ++ "/element_" ++ toString w.clock ++ ".png") w.tick

/-- Element.screenshot with its decorator. -/
def Element.screenshot (el : Element) (path? : Option String) :
    World → Except Exc String × World :=
  screenshot_on_error "screenshot" (some el.pageShot) el.screenshots_dir
    (Element.screenshot_body el path?)

/-- The branch of BasePage.find reached when page.locator returned a locator:
the explicit ElementNotFound for a falsy locator is itself caught by the
generic except and re-wrapped. -/
def BasePage.find_go (bp : BasePage) (selector : String) (loc : LocatorModel)
    (w : World) : Except Exc Element × World :=
  if loc.truthy then
    (Except.ok { locator := loc, pageShot := bp.page.screenshotR,
                 screenshots_dir := bp.screenshots_dir },
     w.logLine ("Found element: " ++ selector))
  else
    (Except.error (Exc.elementNotFound
       ("Failed to find element: Element not found: " ++ selector)),
     ((w.logLine ("Element not found: " ++ selector)).logLine
        ("Failed to find element: Element not found: " ++ selector)))

/-- BasePage.find: NOT decorated with screenshot_on_error.  page.locator is
called inside a try; any exception is re-raised as ElementNotFound. -/
def BasePage.find (bp : BasePage) (selector : String) (w : World) :
    Except Exc Element × World :=
  let w := w.engineCall
  match bp.page.locatorR selector with
  | PrimOutcome.ok loc => BasePage.find_go bp selector loc w
  | PrimOutcome.timeout m =>
      (Except.error (Exc.elementNotFound ("Failed to find element: " ++ m)),
       w.logLine ("Failed to find element: " ++ m))
  | PrimOutcome.err m =>
      (Except.error (Exc.elementNotFound ("Failed to find element: " ++ m)),
       w.logLine ("Failed to find element: " ++ m))

/-- Body of BasePage.wait_for_url. -/
def BasePage.wait_for_url_body (bp : BasePage) (url : String) (timeout : Nat)
    (w : World) : Except Exc Unit × World :=
  let w := w.engineCall
  match bp.page.waitForUrlR url timeout with
  | PrimOutcome.ok _ => (Except.ok (), w.logLine ("Waited for URL: " ++ url))
  | PrimOutcome.timeout _ =>
      (Except.error (Exc.navigationError ("Timeout waiting for URL: " ++ url)),
       w.logLine ("Timeout waiting for URL: " ++ url))
  | PrimOutcome.err m =>
      (Except.error (Exc.navigationError ("Failed to wait for URL: " ++ m)),
       w.logLine ("Failed to wait for URL: " ++ m))

/-- BasePage.wait_for_url with its decorator
(`wait_for_url(self, url, timeout=10000)`). -/
def BasePage.wait_for_url (bp : BasePage) (url : String) (timeout : Nat) :
    World → Except Exc Unit × World :=
  screenshot_on_error "wait_for_url" (some bp.page.screenshotR) bp.screenshots_dir
    (BasePage.wait_for_url_body bp url timeout)

/-- Body of BasePage.wait_for_selector. -/
def BasePage.wait_for_selector_body (bp : BasePage) (selector state : String)
    (timeout : Nat) (w : World) : Except Exc Unit × World :=
  let w := w.engineCall
  match bp.page.waitForSelectorR selector state timeout with
  | PrimOutcome.ok _ =>
      (Except.ok (), w.logLine ("Waited for selector: " ++ selector ++ " to be " ++ state))
  | PrimOutcome.timeout _ =>
      (Except.error (Exc.elementNotFound
         ("Timeout waiting for selector: " ++ selector ++ " to be " ++ state)),
       w.logLine ("Timeout waiting for selector: " ++ selector ++ " to be " ++ state))
  | PrimOutcome.err m =>
      (Except.error (Exc.elementNotFound ("Failed to wait for selector: " ++ m)),
       w.logLine ("Failed to wait for selector: " ++ m))

/-- BasePage.wait_for_selector with its decorator
(`wait_for_selector(self, selector, state="visible", timeout=10000)`). -/
def BasePage.wait_for_selector (bp : BasePage) (selector state : String)
    (timeout : Nat) : World → Except Exc Unit × World :=
  screenshot_on_error "wait_for_selector" (some bp.page.screenshotR)
    bp.screenshots_dir (BasePage.wait_for_selector_body bp selector state timeout)

/-- The page.screenshot call of BasePage.take_screenshot at a resolved path. -/
def BasePage.take_screenshot_go (bp : BasePage) (p : String) (w : World) :
    Except Exc String × World :=
  let w2 := w.engineCall
  match bp.page.screenshotR with
  | PrimOutcome.ok _ =>
      (Except.ok p, (w2.saveShot p).logLine ("Screenshot of page saved: " ++ p))
  | PrimOutcome.timeout m =>
      (Except.error (Exc.actionFailed ("Failed to take page screenshot: " ++ m)),
       w2.logLine ("Failed to take page screenshot: " ++ m))
  | PrimOutcome.err m =>
      (Except.error (Exc.actionFailed ("Failed to take page screenshot: " ++ m)),
       w2.logLine ("Failed to take page screenshot: " ++ m))

/-- Body of BasePage.take_screenshot (no timeout parameter in the source). -/
def BasePage.take_screenshot_body (bp : BasePage) (path? : Option String)
    (w : World) : Except Exc String × World :=
  match path? with
  | some q => BasePage.take_screenshot_go bp q w
  | none =>
      BasePage.take_screenshot_go bp
        (bp.screenshots_dir ++ "/page_" ++ toString w.clock ++ ".png") w.tick

/-- BasePage.take_screenshot with its decorator. -/
def BasePage.take_screenshot (bp : BasePage) (path? : Option String) :
    World → Except Exc String × World :=
  screenshot_on_error "take_screenshot" (some bp.page.screenshotR)
    bp.screenshots_dir (BasePage.take_screenshot_body bp path?)

/-- The pytest_check soft comparison message the source builds on mismatch. -/
def assertFailMsg (expected : String) (actual : Option String) : String :=
  "Text assertion failed: expected '" ++ expected ++ "', got '" ++ pyOpt actual ++ "'"

/-- The text_content + check.equal part of BasePage.assert_text once the
locator is resolved: on success record a pytest_check soft comparison
(check.equal records pass/fail and does not raise); timeout and other errors
become ActionFailed. -/
def BasePage.assert_text_go (selector expected : String) (timeout : Nat)
    (loc : LocatorModel) (w : World) : Except Exc Unit × World :=
  let w := w.engineCall
  match loc.textContentR timeout with
  | PrimOutcome.ok actual =>
      let passed := actual == some expected
      let w := w.recordCheck passed (assertFailMsg expected actual)
      (Except.ok (),
       w.logLine ("Asserted text for " ++ selector ++ ": '" ++ pyOpt actual ++
                  "' == '" ++ expected ++ "'"))
  | PrimOutcome.timeout _ =>
      (Except.error (Exc.actionFailed
         ("Timeout asserting text for selector: " ++ selector)),
       w.logLine ("Timeout asserting text for selector: " ++ selector))
  | PrimOutcome.err m =>
      (Except.error (Exc.actionFailed ("Failed to assert text: " ++ m)),
       w.logLine ("Failed to assert text: " ++ m))

/-- Body of BasePage.assert_text: resolve the text with
page.locator(selector).text_content(timeout), then soft-compare. -/
def BasePage.assert_text_body (bp : BasePage) (selector expected : String)
    (timeout : Nat) (w : World) : Except Exc Unit × World :=
  let w := w.engineCall
  match bp.page.locatorR selector with
  | PrimOutcome.ok loc => BasePage.assert_text_go selector expected timeout loc w
  | PrimOutcome.timeout _ =>
      (Except.error (Exc.actionFailed
         ("Timeout asserting text for selector: " ++ selector)),
       w.logLine ("Timeout asserting text for selector: " ++ selector))
  | PrimOutcome.err m =>
      (Except.error (Exc.actionFailed ("Failed to assert text: " ++ m)),
       w.logLine ("Failed to assert text: " ++ m))

/-- BasePage.assert_text with its decorator
(`assert_text(self, selector, expected, timeout=10000)`). -/
def BasePage.assert_text (bp : BasePage) (selector expected : String)
    (timeout : Nat) : World → Except Exc Unit × World :=
  screenshot_on_error "assert_text" (some bp.page.screenshotR) bp.screenshots_dir
    (BasePage.assert_text_body bp selector expected timeout)

/-- Oracle model of a Playwright page handle as the manager sees it: identity
and the outcome of page.close(). -/
structure PageHandle where
  id : Nat
  closeR : PrimOutcome Unit

/-- Oracle model of a browser context: identity, the outcome of
context.new_page(), and the outcome of context.close(). -/
structure CtxModel where
  id : Nat
  newPageR : PrimOutcome PageHandle
  closeR : PrimOutcome Unit

/-- Oracle model of the launched browser: the outcome of
browser.new_context(**kwargs) per options list, and of browser.close(). -/
structure BrowserModel where
  newContextR : List (String × String) → PrimOutcome CtxModel
  closeR : PrimOutcome Unit

/-- Oracle model of the driving engine object: the outcome of
playwright.stop(). -/
structure EngineModel where
  stopR : PrimOutcome Unit

/-- BrowserManager state: the tracked playwright, browser, context and page
references (None until created). -/
structure BrowserManager where
  headless : Bool
  browser_type : String
  playwright? : Option EngineModel
  browser? : Option BrowserModel
  context? : Option CtxModel
  page? : Option PageHandle

/-- Counters for manager-level engine creations. -/
structure MgrEff where
  ctxCreations : Nat
  pageCreations : Nat
deriving DecidableEq

/-- One close step of BrowserManager.stop_browser. -/
inductive CloseStep where
  | page
  | context
  | browser
  | playwright
deriving DecidableEq

/-- The NavigationError stop_browser raises when a close step fails. -/
def stopFail (m : String) : Except Exc Unit :=
  Except.error (Exc.navigationError ("Failed to stop browser: " ++ m))

/-- Last statement of the stop_browser try block: `if self.playwright:
self.playwright.stop()`. -/
def BrowserManager.stop_step_playwright (mgr : BrowserManager)
    (acc : List CloseStep) : Except Exc Unit × List CloseStep :=
  match mgr.playwright? with
  | none => (Except.ok (), acc)
  | some en =>
    match en.stopR with
    | PrimOutcome.ok _ => (Except.ok (), acc ++ [CloseStep.playwright])
    | PrimOutcome.timeout m => (stopFail m, acc ++ [CloseStep.playwright])
    | PrimOutcome.err m => (stopFail m, acc ++ [CloseStep.playwright])

/-- Third statement: `if self.browser: self.browser.close()`; an exception
aborts the remaining statements of the try block. -/
def BrowserManager.stop_step_browser (mgr : BrowserManager)
    (acc : List CloseStep) : Except Exc Unit × List CloseStep :=
  match mgr.browser? with
  | none => mgr.stop_step_playwright acc
  | some b =>
    match b.closeR with
    | PrimOutcome.ok _ => mgr.stop_step_playwright (acc ++ [CloseStep.browser])
    | PrimOutcome.timeout m => (stopFail m, acc ++ [CloseStep.browser])
    | PrimOutcome.err m => (stopFail m, acc ++ [CloseStep.browser])

/-- Second statement: `if self.context: self.context.close()`. -/
def BrowserManager.stop_step_context (mgr : BrowserManager)
    (acc : List CloseStep) : Except Exc Unit × List CloseStep :=
  match mgr.context? with
  | none => mgr.stop_step_browser acc
  | some c =>
    match c.closeR with
    | PrimOutcome.ok _ => mgr.stop_step_browser (acc ++ [CloseStep.context])
    | PrimOutcome.timeout m => (stopFail m, acc ++ [CloseStep.context])
    | PrimOutcome.err m => (stopFail m, acc ++ [CloseStep.context])

/-- BrowserManager.stop_browser: one try block runs the four close statements
in order; the first exception jumps to the except clause, which raises
NavigationError without attempting the remaining closes.  Returns the result
together with the list of close calls actually attempted. -/
def BrowserManager.stop_browser (mgr : BrowserManager) :
    Except Exc Unit × List CloseStep :=
  match mgr.page? with
  | none => mgr.stop_step_context []
  | some p =>
    match p.closeR with
    | PrimOutcome.ok _ => mgr.stop_step_context [CloseStep.page]
    | PrimOutcome.timeout m => (stopFail m, [CloseStep.page])
    | PrimOutcome.err m => (stopFail m, [CloseStep.page])

/-- BrowserManager.new_context: `self.context = self.browser.new_context(**kwargs)`;
any exception (including a None browser) becomes NavigationError.  The engine
new_context call is counted in the effect record. -/
def BrowserManager.new_context (mgr : BrowserManager)
    (opts : List (String × String)) (eff : MgrEff) :
    Except Exc CtxModel × BrowserManager × MgrEff :=
  match mgr.browser? with
  | none =>
      (Except.error (Exc.navigationError
         ("Failed to create new context: 'NoneType' object has no attribute 'new_context'")),
       mgr, eff)
  | some b =>
    let eff := { eff with ctxCreations := eff.ctxCreations + 1 }
    match b.newContextR opts with
    | PrimOutcome.ok c => (Except.ok c, { mgr with context? := some c }, eff)
    | PrimOutcome.timeout m =>
        (Except.error (Exc.navigationError ("Failed to create new context: " ++ m)),
         mgr, eff)
    | PrimOutcome.err m =>
        (Except.error (Exc.navigationError ("Failed to create new context: " ++ m)),
         mgr, eff)

/-- The `self.page = self.context.new_page()` part of new_page, run once a
context is tracked. -/
def BrowserManager.new_page_go (mgr : BrowserManager) (eff : MgrEff) :
    Except Exc PageHandle × BrowserManager × MgrEff :=
  match mgr.context? with
  | none =>
      (Except.error (Exc.navigationError
         ("Failed to create new page: 'NoneType' object has no attribute 'new_page'")),
       mgr, eff)
  | some c =>
    let eff := { eff with pageCreations := eff.pageCreations + 1 }
    match c.newPageR with
    | PrimOutcome.ok p => (Except.ok p, { mgr with page? := some p }, eff)
    | PrimOutcome.timeout m =>
        (Except.error (Exc.navigationError ("Failed to create new page: " ++ m)),
         mgr, eff)
    | PrimOutcome.err m =>
        (Except.error (Exc.navigationError ("Failed to create new page: " ++ m)),
         mgr, eff)

/-- BrowserManager.new_page: `if not self.context: self.new_context()` (with
no kwargs, i.e. default options) and then create the page inside the tracked
context; any exception becomes NavigationError wrapping the cause. -/
def BrowserManager.new_page (mgr : BrowserManager) (eff : MgrEff) :
    Except Exc PageHandle × BrowserManager × MgrEff :=
  match mgr.context? with
  | some _ => mgr.new_page_go eff
  | none =>
    match mgr.new_context [] eff with
    | (Except.ok _, mgr1, eff1) => mgr1.new_page_go eff1
    | (Except.error e, mgr1, eff1) =>
        (Except.error (Exc.navigationError
           ("Failed to create new page: " ++ Exc.message e)),
         mgr1, eff1)

/-- Modelled from the spec: the error-kind mapping of section 4.2 ("underlying
timeout yields ActionFailed with the timeout message; any other underlying
failure yields ActionFailed with the failure prefix followed by the cause"). -/
def specErrorMapping (timeoutMsg failMsgPre : String) : PrimOutcome A → Except Exc A
  | PrimOutcome.ok a => Except.ok a
  | PrimOutcome.timeout _ => Except.error (Exc.actionFailed timeoutMsg)
  | PrimOutcome.err m => Except.error (Exc.actionFailed (failMsgPre ++ m))

/-- Modelled from the spec: membership in the documented
NotFound / ActionFailed / NavigationFailed error taxonomy of section 7. -/
def Exc.inSpecTaxonomy : Exc → Bool
  | .elementNotFound _ => true
  | .actionFailed _ => true
  | .navigationError _ => true
  | _ => false

/-- The default value of the `timeout` parameter in each Element method
signature in the source, by method name; `none` when the signature has no
timeout parameter. -/
def elementOpDefaultTimeout : String → Option Nat
  | "click" => some 10000
  | "fill" => some 10000
  | "hover" => some 10000
  | "type" => some 10000
  | "press" => some 10000
  | "select_option" => some 10000
  | "get_text" => some 10000
  | "get_attribute" => some 10000
  | "wait_for" => some 10000
  | "is_visible" => some 10000
  | "is_hidden" => some 10000
  | "is_enabled" => some 10000
  | "screenshot" => none
  | _ => none

/-- List helper: does `pat` occur at the head of `s`? -/
def headMatch : List Char → List Char → Bool
  | [], _ => true
  | _ :: _, [] => false
  | p :: ps, c :: cs => p = c && headMatch ps cs

/-- List helper: does `pat` occur anywhere in `s`? -/
def hasSubList (pat : List Char) : List Char → Bool
  | [] => headMatch pat []
  | c :: cs => headMatch pat (c :: cs) || hasSubList pat cs

/-- Does the string `s` contain `pat` as a substring? -/
def strContains (s pat : String) : Bool :=
  hasSubList pat.toList s.toList

/-- Fixture: a locator whose every primitive yields the given outcomes. -/
def locUniform (nm : String) (act : PrimOutcome Unit)
    (txt : PrimOutcome (Option String)) (bo : PrimOutcome Bool) : LocatorModel :=
  { name := nm, truthy := true,
    clickR := fun _ => act, fillR := fun _ _ => act, hoverR := fun _ => act,
    typeR := fun _ _ => act, pressR := fun _ _ => act,
    selectOptionR := fun _ _ => act,
    textContentR := fun _ => txt, getAttributeR := fun _ _ => txt,
    waitForR := fun _ _ => act, isVisibleR := fun _ => bo,
    isHiddenR := fun _ => bo, isEnabledR := fun _ => bo,
    screenshotR := fun _ => act }

/-- Fixture: an element whose every primitive raises a non-timeout error
"boom" and whose page screenshot succeeds. -/
def elBoom : Element :=
  { locator := locUniform "L" (PrimOutcome.err "boom") (PrimOutcome.err "boom")
      (PrimOutcome.err "boom"),
    pageShot := PrimOutcome.ok (), screenshots_dir := "screenshots" }

/-- Fixture: an element whose every primitive times out and whose page
screenshot also fails (capture failure must not mask the error). -/
def elTimeoutShotFail : Element :=
  { locator := locUniform "L" (PrimOutcome.timeout "t") (PrimOutcome.timeout "t")
      (PrimOutcome.timeout "t"),
    pageShot := PrimOutcome.err "shotfail", screenshots_dir := "screenshots" }

/-- Fixture: an element whose every primitive succeeds. -/
def elOk : Element :=
  { locator := locUniform "L" (PrimOutcome.ok ()) (PrimOutcome.ok (some "X"))
      (PrimOutcome.ok true),
    pageShot := PrimOutcome.ok (), screenshots_dir := "screenshots" }

/-- Fixture: a page whose locator resolution raises "boom". -/
def pageLocatorBoom : PageModel :=
  { name := "P", locatorR := fun _ => PrimOutcome.err "boom",
    waitForUrlR := fun _ _ => PrimOutcome.ok (),
    waitForSelectorR := fun _ _ _ => PrimOutcome.ok (),
    screenshotR := PrimOutcome.ok () }

/-- Fixture: a BasePage over `pageLocatorBoom`. -/
def bpLocatorBoom : BasePage :=
  { page := pageLocatorBoom, screenshots_dir := "screenshots" }

/-- Fixture: the locator for a "#h" element holding text "X". -/
def locHeaderX : LocatorModel :=
  locUniform "L" (PrimOutcome.ok ()) (PrimOutcome.ok (some "X")) (PrimOutcome.ok true)

/-- Fixture: a page whose locator resolves to an element with text "X" and
whose other primitives succeed. -/
def pageTextX : PageModel :=
  { name := "P",
    locatorR := fun _ => PrimOutcome.ok locHeaderX,
    waitForUrlR := fun _ _ => PrimOutcome.ok (),
    waitForSelectorR := fun _ _ _ => PrimOutcome.ok (),
    screenshotR := PrimOutcome.ok () }

/-- Fixture: a BasePage over `pageTextX`. -/
def bpTextX : BasePage :=
  { page := pageTextX, screenshots_dir := "screenshots" }

/-- Fixture: the locator for a "#h" element whose text read times out. -/
def locHeaderTimeout : LocatorModel :=
  locUniform "L" (PrimOutcome.ok ()) (PrimOutcome.timeout "t") (PrimOutcome.ok true)

/-- Fixture: a page whose text resolution times out. -/
def pageTextTimeout : PageModel :=
  { name := "P",
    locatorR := fun _ => PrimOutcome.ok locHeaderTimeout,
    waitForUrlR := fun _ _ => PrimOutcome.ok (),
    waitForSelectorR := fun _ _ _ => PrimOutcome.ok (),
    screenshotR := PrimOutcome.ok () }

/-- Fixture: a BasePage over `pageTextTimeout`. -/
def bpTextTimeout : BasePage :=
  { page := pageTextTimeout, screenshots_dir := "screenshots" }

/-- Fixture: a difflib oracle suggesting "click" for "clik". -/
def suggClik : String → Option String :=
  fun n => if n = "clik" then some "click" else none

/-- Fixture: an engine whose stop() succeeds. -/
def engOk : EngineModel :=
  { stopR := PrimOutcome.ok () }

/-- Fixture: a page handle whose close() succeeds. -/
def pageHandleOk : PageHandle :=
  { id := 7, closeR := PrimOutcome.ok () }

/-- Fixture: a page handle whose close() raises "boom". -/
def pageHandleBoom : PageHandle :=
  { id := 7, closeR := PrimOutcome.err "boom" }

/-- Fixture: a context whose page creation and close succeed. -/
def ctxOk : CtxModel :=
  { id := 1, newPageR := PrimOutcome.ok pageHandleOk, closeR := PrimOutcome.ok () }

/-- Fixture: a browser whose context creation and close succeed. -/
def browserOk : BrowserModel :=
  { newContextR := fun _ => PrimOutcome.ok ctxOk, closeR := PrimOutcome.ok () }

/-- Fixture: a manager with all four resources tracked, where page.close()
raises "boom" and every other close would succeed. -/
def mgrPageCloseFails : BrowserManager :=
  { headless := true, browser_type := "chromium", playwright? := some engOk,
    browser? := some browserOk, context? := some ctxOk,
    page? := some pageHandleBoom }

/-- Fixture: a manager with all four resources tracked and every close
succeeding. -/
def mgrAllOk : BrowserManager :=
  { headless := true, browser_type := "chromium", playwright? := some engOk,
    browser? := some browserOk, context? := some ctxOk,
    page? := some pageHandleOk }

/-- Fixture: the page `ctxFresh` creates. -/
def pageHandleFresh : PageHandle :=
  { id := 9, closeR := PrimOutcome.ok () }

/-- Fixture: the context that `mgrNoCtx`'s browser creates. -/
def ctxFresh : CtxModel :=
  { id := 3, newPageR := PrimOutcome.ok pageHandleFresh, closeR := PrimOutcome.ok () }

/-- Fixture: a browser that creates `ctxFresh`. -/
def browserFresh : BrowserModel :=
  { newContextR := fun _ => PrimOutcome.ok ctxFresh, closeR := PrimOutcome.ok () }

/-- Fixture: a started manager with no context tracked yet. -/
def mgrNoCtx : BrowserManager :=
  { headless := true, browser_type := "chromium", playwright? := some engOk,
    browser? := some browserFresh, context? := none, page? := none }

/-- Fixture: the page `ctxTracked` creates. -/
def pageHandleTracked : PageHandle :=
  { id := 11, closeR := PrimOutcome.ok () }

/-- Fixture: the context tracked by `mgrWithCtx`. -/
def ctxTracked : CtxModel :=
  { id := 4, newPageR := PrimOutcome.ok pageHandleTracked, closeR := PrimOutcome.ok () }

/-- Fixture: a started manager that already tracks `ctxTracked`. -/
def mgrWithCtx : BrowserManager :=
  { headless := true, browser_type := "chromium", playwright? := some engOk,
    browser? := some browserFresh, context? := some ctxTracked, page? := none }

/-- Fixture: zeroed manager-effect counters. -/
def eff0 : MgrEff :=
  { ctxCreations := 0, pageCreations := 0 }

/-- Fixture: a difflib oracle finding no close match for any name. -/
def suggNone : String → Option String :=
  fun _ => none

@[simp] theorem logLine_shots (w : World) (s : String) :
    (World.logLine w s).errorShotAttempts = w.errorShotAttempts := rfl

@[simp] theorem logLine_engine (w : World) (s : String) :
    (World.logLine w s).engineCalls = w.engineCalls := rfl

@[simp] theorem logLine_soft (w : World) (s : String) :
    (World.logLine w s).softChecks = w.softChecks := rfl

@[simp] theorem engineCall_shots (w : World) :
    (World.engineCall w).errorShotAttempts = w.errorShotAttempts := rfl

@[simp] theorem engineCall_soft (w : World) :
    (World.engineCall w).softChecks = w.softChecks := rfl

@[simp] theorem tick_shots (w : World) :
    (World.tick w).errorShotAttempts = w.errorShotAttempts := rfl

@[simp] theorem tick_soft (w : World) :
    (World.tick w).softChecks = w.softChecks := rfl

@[simp] theorem saveShot_shots (w : World) (p : String) :
    (World.saveShot w p).errorShotAttempts = w.errorShotAttempts := rfl

@[simp] theorem saveShot_soft (w : World) (p : String) :
    (World.saveShot w p).softChecks = w.softChecks := rfl

@[simp] theorem recordCheck_shots (w : World) (b : Bool) (m : String) :
    (World.recordCheck w b m).errorShotAttempts = w.errorShotAttempts := rfl

@[simp] theorem recordCheck_soft (w : World) (b : Bool) (m : String) :
    (World.recordCheck w b m).softChecks = w.softChecks ++ [(b, m)] := rfl

/-- The interceptor never changes the result: on success the wrapped method's
value is returned, on failure the original exception propagates. -/
theorem interceptor_fst (n : String) (sh : Option (PrimOutcome Unit))
    (dir : String) (op : World → Except Exc A × World) (w : World) :
    (screenshot_on_error n sh dir op w).1 = (op w).1 := by
  unfold screenshot_on_error
  rcases hw : op w with ⟨r, w1⟩
  cases r <;> rfl

/-- When the wrapped method succeeds, the interceptor performs no further
side effects. -/
theorem interceptor_snd_ok (n : String) (sh : Option (PrimOutcome Unit))
    (dir : String) (op : World → Except Exc A × World) (w : World)
    (h : okFlag (op w).1 = true) :
    (screenshot_on_error n sh dir op w).2 = (op w).2 := by
  unfold screenshot_on_error
  rcases hw : op w with ⟨r, w1⟩
  rw [hw] at h
  cases r with
  | ok a => rfl
  | error e => simp [okFlag] at h

/-- The diagnostic capture attempts exactly one screenshot when a page is
present, whatever the capture outcome. -/
theorem diagnosticCapture_shots (n : String) (sh : PrimOutcome Unit)
    (dir : String) (e : Exc) (w : World) :
    (diagnosticCapture n (some sh) dir e w).errorShotAttempts
      = w.errorShotAttempts + 1 := by
  cases sh <;> rfl

/-- Any method wrapped with screenshot_on_error over a present page, whose
body does not itself touch the diagnostic-capture counter, attempts exactly
one diagnostic screenshot when it fails and none when it succeeds, and its
result is the body's result. -/
theorem wrapped_op_spec (n : String) (sh : PrimOutcome Unit) (dir : String)
    (op : World → Except Exc A × World) (w : World)
    (hbody : ((op w).2).errorShotAttempts = w.errorShotAttempts) :
    ((screenshot_on_error n (some sh) dir op w).2).errorShotAttempts
      = w.errorShotAttempts
        + (if okFlag (screenshot_on_error n (some sh) dir op w).1 then 0 else 1)
    ∧ (screenshot_on_error n (some sh) dir op w).1 = (op w).1 := by
  unfold screenshot_on_error
  rcases hw : op w with ⟨r, w1⟩
  rw [hw] at hbody
  simp only at hbody
  cases r with
  | ok a =>
      exact ⟨by simpa [okFlag] using hbody, rfl⟩
  | error e =>
      refine ⟨?_, rfl⟩
      simp [okFlag, diagnosticCapture_shots, hbody]

theorem click_body_shots (el : Element) (t : Nat) (w : World) :
    ((Element.click_body el t w).2).errorShotAttempts = w.errorShotAttempts := by
  unfold Element.click_body
  cases el.locator.clickR t <;> rfl

theorem fill_body_shots (el : Element) (v : String) (t : Nat) (w : World) :
    ((Element.fill_body el v t w).2).errorShotAttempts = w.errorShotAttempts := by
  unfold Element.fill_body
  cases el.locator.fillR v t <;> rfl

theorem hover_body_shots (el : Element) (t : Nat) (w : World) :
    ((Element.hover_body el t w).2).errorShotAttempts = w.errorShotAttempts := by
  unfold Element.hover_body
  cases el.locator.hoverR t <;> rfl

theorem type_body_shots (el : Element) (v : String) (t : Nat) (w : World) :
    ((Element.type_body el v t w).2).errorShotAttempts = w.errorShotAttempts := by
  unfold Element.type_body
  cases el.locator.typeR v t <;> rfl

theorem press_body_shots (el : Element) (k : String) (t : Nat) (w : World) :
    ((Element.press_body el k t w).2).errorShotAttempts = w.errorShotAttempts := by
  unfold Element.press_body
  cases el.locator.pressR k t <;> rfl

theorem select_option_body_shots (el : Element) (v : String) (t : Nat) (w : World) :
    ((Element.select_option_body el v t w).2).errorShotAttempts
      = w.errorShotAttempts := by
  unfold Element.select_option_body
  cases el.locator.selectOptionR v t <;> rfl

theorem get_text_body_shots (el : Element) (t : Nat) (w : World) :
    ((Element.get_text_body el t w).2).errorShotAttempts = w.errorShotAttempts := by
  unfold Element.get_text_body
  cases el.locator.textContentR t <;> rfl

theorem get_attribute_body_shots (el : Element) (a : String) (t : Nat) (w : World) :
    ((Element.get_attribute_body el a t w).2).errorShotAttempts
      = w.errorShotAttempts := by
  unfold Element.get_attribute_body
  cases el.locator.getAttributeR a t <;> rfl

theorem wait_for_body_shots (el : Element) (st : String) (t : Nat) (w : World) :
    ((Element.wait_for_body el st t w).2).errorShotAttempts
      = w.errorShotAttempts := by
  unfold Element.wait_for_body
  cases el.locator.waitForR st t <;> rfl

theorem is_visible_body_shots (el : Element) (t : Nat) (w : World) :
    ((Element.is_visible_body el t w).2).errorShotAttempts = w.errorShotAttempts := by
  unfold Element.is_visible_body
  cases el.locator.isVisibleR t <;> rfl

theorem is_hidden_body_shots (el : Element) (t : Nat) (w : World) :
    ((Element.is_hidden_body el t w).2).errorShotAttempts = w.errorShotAttempts := by
  unfold Element.is_hidden_body
  cases el.locator.isHiddenR t <;> rfl

theorem is_enabled_body_shots (el : Element) (t : Nat) (w : World) :
    ((Element.is_enabled_body el t w).2).errorShotAttempts = w.errorShotAttempts := by
  unfold Element.is_enabled_body
  cases el.locator.isEnabledR t <;> rfl

theorem screenshot_go_shots (el : Element) (p : String) (w : World) :
    ((Element.screenshot_go el p w).2).errorShotAttempts = w.errorShotAttempts := by
  unfold Element.screenshot_go
  cases el.locator.screenshotR p <;> rfl

theorem screenshot_body_shots (el : Element) (p? : Option String) (w : World) :
    ((Element.screenshot_body el p? w).2).errorShotAttempts
      = w.errorShotAttempts := by
  unfold Element.screenshot_body
  cases p? with
  | none =>
      exact screenshot_go_shots el
        (el.screenshots_dir ++ "/element_" ++ toString w.clock ++ ".png") w.tick
  | some q => exact screenshot_go_shots el q w

theorem wait_for_url_body_shots (bp : BasePage) (u : String) (t : Nat) (w : World) :
    ((BasePage.wait_for_url_body bp u t w).2).errorShotAttempts
      = w.errorShotAttempts := by
  unfold BasePage.wait_for_url_body
  cases bp.page.waitForUrlR u t <;> rfl

theorem wait_for_selector_body_shots (bp : BasePage) (s st : String) (t : Nat)
    (w : World) :
    ((BasePage.wait_for_selector_body bp s st t w).2).errorShotAttempts
      = w.errorShotAttempts := by
  unfold BasePage.wait_for_selector_body
  cases bp.page.waitForSelectorR s st t <;> rfl

theorem take_screenshot_go_shots (bp : BasePage) (p : String) (w : World) :
    ((BasePage.take_screenshot_go bp p w).2).errorShotAttempts
      = w.errorShotAttempts := by
  unfold BasePage.take_screenshot_go
  cases bp.page.screenshotR <;> rfl

theorem take_screenshot_body_shots (bp : BasePage) (p? : Option String)
    (w : World) :
    ((BasePage.take_screenshot_body bp p? w).2).errorShotAttempts
      = w.errorShotAttempts := by
  unfold BasePage.take_screenshot_body
  cases p? with
  | none =>
      exact take_screenshot_go_shots bp
        (bp.screenshots_dir ++ "/page_" ++ toString w.clock ++ ".png") w.tick
  | some q => exact take_screenshot_go_shots bp q w

theorem assert_text_go_shots (s e : String) (t : Nat) (loc : LocatorModel)
    (w : World) :
    ((BasePage.assert_text_go s e t loc w).2).errorShotAttempts
      = w.errorShotAttempts := by
  unfold BasePage.assert_text_go
  cases loc.textContentR t <;> rfl

theorem assert_text_body_shots (bp : BasePage) (s e : String) (t : Nat)
    (w : World) :
    ((BasePage.assert_text_body bp s e t w).2).errorShotAttempts
      = w.errorShotAttempts := by
  unfold BasePage.assert_text_body
  cases bp.page.locatorR s with
  | ok loc => exact assert_text_go_shots s e t loc w.engineCall
  | timeout m => rfl
  | err m => rfl

theorem find_go_shots (bp : BasePage) (s : String) (loc : LocatorModel)
    (w : World) :
    ((BasePage.find_go bp s loc w).2).errorShotAttempts = w.errorShotAttempts := by
  unfold BasePage.find_go
  cases loc.truthy <;> rfl

/-- BasePage.find never attempts a diagnostic screenshot (it is not wrapped
with screenshot_on_error). -/
theorem find_shots (bp : BasePage) (s : String) (w : World) :
    ((BasePage.find bp s w).2).errorShotAttempts = w.errorShotAttempts := by
  unfold BasePage.find
  cases bp.page.locatorR s with
  | ok loc => exact find_go_shots bp s loc w.engineCall
  | timeout m => rfl
  | err m => rfl

/-- C1 (counterexample): the claim says every listed operation, `find`
included, attempts exactly one screenshot capture before its error
propagates.  On a page whose locator resolution raises, BasePage.find raises
ElementNotFound having attempted zero screenshot captures. -/
theorem find_raises_without_capture_cex :
    (BasePage.find bpLocatorBoom "#x" World.empty).1
      = Except.error (Exc.elementNotFound "Failed to find element: boom")
    ∧ ((BasePage.find bpLocatorBoom "#x" World.empty).2).errorShotAttempts = 0 :=
  ⟨rfl, rfl⟩

/-- C1 (amended): every decorated Element/Page operation (click, fill, hover,
type, press, select_option, get_text, get_attribute, wait_for, is_visible,
is_hidden, is_enabled, screenshot, wait_for_url, wait_for_selector,
take_screenshot, assert_text) attempts exactly one diagnostic screenshot
capture when it fails and none when it succeeds, and the propagated result is
the wrapped body's result, unchanged by the capture's success or failure;
BasePage.find, which is not decorated, propagates its error with no capture
attempt. -/
theorem decorated_ops_capture_exactly_once :
    (∀ el t w, ((Element.click el t w).2).errorShotAttempts
        = w.errorShotAttempts + (if okFlag (Element.click el t w).1 then 0 else 1)
      ∧ (Element.click el t w).1 = (Element.click_body el t w).1)
    ∧ (∀ el v t w, ((Element.fill el v t w).2).errorShotAttempts
        = w.errorShotAttempts + (if okFlag (Element.fill el v t w).1 then 0 else 1)
      ∧ (Element.fill el v t w).1 = (Element.fill_body el v t w).1)
    ∧ (∀ el t w, ((Element.hover el t w).2).errorShotAttempts
        = w.errorShotAttempts + (if okFlag (Element.hover el t w).1 then 0 else 1)
      ∧ (Element.hover el t w).1 = (Element.hover_body el t w).1)
    ∧ (∀ el v t w, ((Element.type el v t w).2).errorShotAttempts
        = w.errorShotAttempts + (if okFlag (Element.type el v t w).1 then 0 else 1)
      ∧ (Element.type el v t w).1 = (Element.type_body el v t w).1)
    ∧ (∀ el k t w, ((Element.press el k t w).2).errorShotAttempts
        = w.errorShotAttempts + (if okFlag (Element.press el k t w).1 then 0 else 1)
      ∧ (Element.press el k t w).1 = (Element.press_body el k t w).1)
    ∧ (∀ el v t w, ((Element.select_option el v t w).2).errorShotAttempts
        = w.errorShotAttempts
          + (if okFlag (Element.select_option el v t w).1 then 0 else 1)
      ∧ (Element.select_option el v t w).1 = (Element.select_option_body el v t w).1)
    ∧ (∀ el t w, ((Element.get_text el t w).2).errorShotAttempts
        = w.errorShotAttempts + (if okFlag (Element.get_text el t w).1 then 0 else 1)
      ∧ (Element.get_text el t w).1 = (Element.get_text_body el t w).1)
    ∧ (∀ el a t w, ((Element.get_attribute el a t w).2).errorShotAttempts
        = w.errorShotAttempts
          + (if okFlag (Element.get_attribute el a t w).1 then 0 else 1)
      ∧ (Element.get_attribute el a t w).1 = (Element.get_attribute_body el a t w).1)
    ∧ (∀ el st t w, ((Element.wait_for el st t w).2).errorShotAttempts
        = w.errorShotAttempts + (if okFlag (Element.wait_for el st t w).1 then 0 else 1)
      ∧ (Element.wait_for el st t w).1 = (Element.wait_for_body el st t w).1)
    ∧ (∀ el t w, ((Element.is_visible el t w).2).errorShotAttempts
        = w.errorShotAttempts + (if okFlag (Element.is_visible el t w).1 then 0 else 1)
      ∧ (Element.is_visible el t w).1 = (Element.is_visible_body el t w).1)
    ∧ (∀ el t w, ((Element.is_hidden el t w).2).errorShotAttempts
        = w.errorShotAttempts + (if okFlag (Element.is_hidden el t w).1 then 0 else 1)
      ∧ (Element.is_hidden el t w).1 = (Element.is_hidden_body el t w).1)
    ∧ (∀ el t w, ((Element.is_enabled el t w).2).errorShotAttempts
        = w.errorShotAttempts + (if okFlag (Element.is_enabled el t w).1 then 0 else 1)
      ∧ (Element.is_enabled el t w).1 = (Element.is_enabled_body el t w).1)
    ∧ (∀ el p? w, ((Element.screenshot el p? w).2).errorShotAttempts
        = w.errorShotAttempts + (if okFlag (Element.screenshot el p? w).1 then 0 else 1)
      ∧ (Element.screenshot el p? w).1 = (Element.screenshot_body el p? w).1)
    ∧ (∀ bp u t w, ((BasePage.wait_for_url bp u t w).2).errorShotAttempts
        = w.errorShotAttempts
          + (if okFlag (BasePage.wait_for_url bp u t w).1 then 0 else 1)
      ∧ (BasePage.wait_for_url bp u t w).1 = (BasePage.wait_for_url_body bp u t w).1)
    ∧ (∀ bp s st t w, ((BasePage.wait_for_selector bp s st t w).2).errorShotAttempts
        = w.errorShotAttempts
          + (if okFlag (BasePage.wait_for_selector bp s st t w).1 then 0 else 1)
      ∧ (BasePage.wait_for_selector bp s st t w).1
          = (BasePage.wait_for_selector_body bp s st t w).1)
    ∧ (∀ bp p? w, ((BasePage.take_screenshot bp p? w).2).errorShotAttempts
        = w.errorShotAttempts
          + (if okFlag (BasePage.take_screenshot bp p? w).1 then 0 else 1)
      ∧ (BasePage.take_screenshot bp p? w).1
          = (BasePage.take_screenshot_body bp p? w).1)
    ∧ (∀ bp s e t w, ((BasePage.assert_text bp s e t w).2).errorShotAttempts
        = w.errorShotAttempts
          + (if okFlag (BasePage.assert_text bp s e t w).1 then 0 else 1)
      ∧ (BasePage.assert_text bp s e t w).1
          = (BasePage.assert_text_body bp s e t w).1)
    ∧ (∀ bp s w, ((BasePage.find bp s w).2).errorShotAttempts
        = w.errorShotAttempts) := by
  refine ⟨?_, ?_, ?_, ?_, ?_, ?_, ?_, ?_, ?_, ?_, ?_, ?_, ?_, ?_, ?_, ?_, ?_, ?_⟩
  · intro el t w
    exact wrapped_op_spec "click" el.pageShot el.screenshots_dir
      (Element.click_body el t) w (click_body_shots el t w)
  · intro el v t w
    exact wrapped_op_spec "fill" el.pageShot el.screenshots_dir
      (Element.fill_body el v t) w (fill_body_shots el v t w)
  · intro el t w
    exact wrapped_op_spec "hover" el.pageShot el.screenshots_dir
      (Element.hover_body el t) w (hover_body_shots el t w)
  · intro el v t w
    exact wrapped_op_spec "type" el.pageShot el.screenshots_dir
      (Element.type_body el v t) w (type_body_shots el v t w)
  · intro el k t w
    exact wrapped_op_spec "press" el.pageShot el.screenshots_dir
      (Element.press_body el k t) w (press_body_shots el k t w)
  · intro el v t w
    exact wrapped_op_spec "select_option" el.pageShot el.screenshots_dir
      (Element.select_option_body el v t) w (select_option_body_shots el v t w)
  · intro el t w
    exact wrapped_op_spec "get_text" el.pageShot el.screenshots_dir
      (Element.get_text_body el t) w (get_text_body_shots el t w)
  · intro el a t w
    exact wrapped_op_spec "get_attribute" el.pageShot el.screenshots_dir
      (Element.get_attribute_body el a t) w (get_attribute_body_shots el a t w)
  · intro el st t w
    exact wrapped_op_spec "wait_for" el.pageShot el.screenshots_dir
      (Element.wait_for_body el st t) w (wait_for_body_shots el st t w)
  · intro el t w
    exact wrapped_op_spec "is_visible" el.pageShot el.screenshots_dir
      (Element.is_visible_body el t) w (is_visible_body_shots el t w)
  · intro el t w
    exact wrapped_op_spec "is_hidden" el.pageShot el.screenshots_dir
      (Element.is_hidden_body el t) w (is_hidden_body_shots el t w)
  · intro el t w
    exact wrapped_op_spec "is_enabled" el.pageShot el.screenshots_dir
      (Element.is_enabled_body el t) w (is_enabled_body_shots el t w)
  · intro el p? w
    exact wrapped_op_spec "screenshot" el.pageShot el.screenshots_dir
      (Element.screenshot_body el p?) w (screenshot_body_shots el p? w)
  · intro bp u t w
    exact wrapped_op_spec "wait_for_url" bp.page.screenshotR bp.screenshots_dir
      (BasePage.wait_for_url_body bp u t) w (wait_for_url_body_shots bp u t w)
  · intro bp s st t w
    exact wrapped_op_spec "wait_for_selector" bp.page.screenshotR bp.screenshots_dir
      (BasePage.wait_for_selector_body bp s st t) w
      (wait_for_selector_body_shots bp s st t w)
  · intro bp p? w
    exact wrapped_op_spec "take_screenshot" bp.page.screenshotR bp.screenshots_dir
      (BasePage.take_screenshot_body bp p?) w (take_screenshot_body_shots bp p? w)
  · intro bp s e t w
    exact wrapped_op_spec "assert_text" bp.page.screenshotR bp.screenshots_dir
      (BasePage.assert_text_body bp s e t) w (assert_text_body_shots bp s e t w)
  · intro bp s w
    exact find_shots bp s w

/-- C2: the failure interceptor returns the wrapped operation's result
unchanged on success, and on failure re-raises exactly the exception the
wrapped operation raised (same kind, same message) — it never suppresses an
exception and never substitutes a different one. -/
theorem interceptor_transparent (n : String) (sh : Option (PrimOutcome Unit))
    (dir : String) (op : World → Except Exc A × World) (w : World) :
    (screenshot_on_error n sh dir op w).1 = (op w).1 :=
  interceptor_fst n sh dir op w

/-- C3: any operation name outside Element._valid_methods fails immediately
with an AttributeError, issuing no engine call and no screenshot attempt; the
message carries the close-match suggestion when the difflib oracle finds one
and the generic no-similar-method text otherwise. -/
theorem unsupported_name_fails_fast (suggest : String → Option String)
    (nm : String) (w : World) (h : nm ∉ Element.valid_methods) :
    Element.getattrDispatch suggest nm w
      = (Except.error (Exc.attributeError (unsupportedMsg suggest nm)),
         w.logLine (unsupportedMsg suggest nm))
    ∧ ((Element.getattrDispatch suggest nm w).2).engineCalls = w.engineCalls
    ∧ (∀ s, suggest nm = some s →
        unsupportedMsg suggest nm
          = "Element has no method '" ++ nm ++ "'. " ++ ("Did you mean: " ++ s ++ "()?"))
    ∧ (suggest nm = none →
        unsupportedMsg suggest nm
          = "Element has no method '" ++ nm ++ "'. " ++ "No similar method found.") := by
  have hd : Element.getattrDispatch suggest nm w
      = (Except.error (Exc.attributeError (unsupportedMsg suggest nm)),
         w.logLine (unsupportedMsg suggest nm)) := by
    unfold Element.getattrDispatch
    rw [if_neg h]
  refine ⟨hd, ?_, ?_, ?_⟩
  · rw [hd]
    simp
  · intro s hs
    unfold unsupportedMsg Element.suggest_method
    rw [hs]
  · intro hs
    unfold unsupportedMsg Element.suggest_method
    rw [hs]

/-- C3 witness: the name "clik" is unsupported; with the difflib oracle
suggesting "click" the access fails with the suggestion message. -/
theorem unsupported_name_fails_fast_wit :
    Element.getattrDispatch suggClik "clik" World.empty
      = (Except.error (Exc.attributeError
           ("Element has no method '" ++ "clik" ++ "'. "
             ++ ("Did you mean: " ++ "click" ++ "()?"))),
         World.empty.logLine
           ("Element has no method '" ++ "clik" ++ "'. "
             ++ ("Did you mean: " ++ "click" ++ "()?"))) := by
  have h := unsupported_name_fails_fast suggClik "clik" World.empty (by decide)
  have hm := h.2.2.1 "click" (by decide)
  rw [h.1, hm]

/-- C4 (counterexample): the claim says every non-timeout underlying failure
yields a message of the form "Failed to <op> element: <cause>"; get_text's
failure message is "Failed to get text: <cause>", which does not even contain
the word "element". -/
theorem get_text_message_form_cex :
    (Element.get_text elBoom 5 World.empty).1
      = Except.error (Exc.actionFailed "Failed to get text: boom")
    ∧ strContains "Failed to get text: boom" "element" = false := by
  refine ⟨rfl, by decide⟩

/-- C4 (amended): for every Element action or query, an underlying timeout
raises ActionFailed with that operation's "Timeout ..." message naming the
element, and any other underlying error raises ActionFailed with that
operation's "Failed to ..." message followed by the cause; the exact per-op
wording is as in the source (some messages omit the word "element", e.g.
"Failed to get text: <cause>"). -/
theorem element_ops_error_kind_mapping :
    (∀ el t w, (Element.click el t w).1
        = specErrorMapping ("Timeout clicking element: " ++ el.locator.name)
            "Failed to click element: " (el.locator.clickR t))
    ∧ (∀ el v t w, (Element.fill el v t w).1
        = specErrorMapping ("Timeout filling element: " ++ el.locator.name)
            "Failed to fill element: " (el.locator.fillR v t))
    ∧ (∀ el t w, (Element.hover el t w).1
        = specErrorMapping ("Timeout hovering element: " ++ el.locator.name)
            "Failed to hover element: " (el.locator.hoverR t))
    ∧ (∀ el v t w, (Element.type el v t w).1
        = specErrorMapping ("Timeout typing into element: " ++ el.locator.name)
            "Failed to type into element: " (el.locator.typeR v t))
    ∧ (∀ el k t w, (Element.press el k t w).1
        = specErrorMapping ("Timeout pressing key on element: " ++ el.locator.name)
            "Failed to press key on element: " (el.locator.pressR k t))
    ∧ (∀ el v t w, (Element.select_option el v t w).1
        = specErrorMapping ("Timeout selecting option in element: " ++ el.locator.name)
            "Failed to select option: " (el.locator.selectOptionR v t))
    ∧ (∀ el t w, (Element.get_text el t w).1
        = specErrorMapping ("Timeout getting text from element: " ++ el.locator.name)
            "Failed to get text: " (el.locator.textContentR t))
    ∧ (∀ el a t w, (Element.get_attribute el a t w).1
        = specErrorMapping ("Timeout getting attribute from element: " ++ el.locator.name)
            "Failed to get attribute: " (el.locator.getAttributeR a t))
    ∧ (∀ el st t w, (Element.wait_for el st t w).1
        = specErrorMapping
            ("Timeout waiting for element: " ++ el.locator.name ++ " to be " ++ st)
            "Failed to wait for element: " (el.locator.waitForR st t))
    ∧ (∀ el t w, (Element.is_visible el t w).1
        = specErrorMapping ("Timeout checking visibility for element: " ++ el.locator.name)
            "Failed to check visibility: " (el.locator.isVisibleR t))
    ∧ (∀ el t w, (Element.is_hidden el t w).1
        = specErrorMapping ("Timeout checking hidden for element: " ++ el.locator.name)
            "Failed to check hidden: " (el.locator.isHiddenR t))
    ∧ (∀ el t w, (Element.is_enabled el t w).1
        = specErrorMapping ("Timeout checking enabled for element: " ++ el.locator.name)
            "Failed to check enabled: " (el.locator.isEnabledR t)) := by
  refine ⟨?_, ?_, ?_, ?_, ?_, ?_, ?_, ?_, ?_, ?_, ?_, ?_⟩
  · intro el t w
    unfold Element.click
    rw [interceptor_fst]
    unfold Element.click_body
    cases el.locator.clickR t <;> rfl
  · intro el v t w
    unfold Element.fill
    rw [interceptor_fst]
    unfold Element.fill_body
    cases el.locator.fillR v t <;> rfl
  · intro el t w
    unfold Element.hover
    rw [interceptor_fst]
    unfold Element.hover_body
    cases el.locator.hoverR t <;> rfl
  · intro el v t w
    unfold Element.type
    rw [interceptor_fst]
    unfold Element.type_body
    cases el.locator.typeR v t <;> rfl
  · intro el k t w
    unfold Element.press
    rw [interceptor_fst]
    unfold Element.press_body
    cases el.locator.pressR k t <;> rfl
  · intro el v t w
    unfold Element.select_option
    rw [interceptor_fst]
    unfold Element.select_option_body
    cases el.locator.selectOptionR v t <;> rfl
  · intro el t w
    unfold Element.get_text
    rw [interceptor_fst]
    unfold Element.get_text_body
    cases el.locator.textContentR t <;> rfl
  · intro el a t w
    unfold Element.get_attribute
    rw [interceptor_fst]
    unfold Element.get_attribute_body
    cases el.locator.getAttributeR a t <;> rfl
  · intro el st t w
    unfold Element.wait_for
    rw [interceptor_fst]
    unfold Element.wait_for_body
    cases el.locator.waitForR st t <;> rfl
  · intro el t w
    unfold Element.is_visible
    rw [interceptor_fst]
    unfold Element.is_visible_body
    cases el.locator.isVisibleR t <;> rfl
  · intro el t w
    unfold Element.is_hidden
    rw [interceptor_fst]
    unfold Element.is_hidden_body
    cases el.locator.isHiddenR t <;> rfl
  · intro el t w
    unfold Element.is_enabled
    rw [interceptor_fst]
    unfold Element.is_enabled_body
    cases el.locator.isEnabledR t <;> rfl

/-- C5 (counterexample): the claim says a failure while closing one resource
does not prevent the attempt to close the remaining ones.  With every
resource tracked and page.close() raising "boom", stop_browser raises
NavigationError having attempted only the page close — the context, browser
and engine closes are never attempted. -/
theorem stop_browser_not_independent_cex :
    BrowserManager.stop_browser mgrPageCloseFails
      = (Except.error (Exc.navigationError "Failed to stop browser: boom"),
         [CloseStep.page])
    ∧ CloseStep.context ∉ (BrowserManager.stop_browser mgrPageCloseFails).2
    ∧ CloseStep.browser ∉ (BrowserManager.stop_browser mgrPageCloseFails).2
    ∧ CloseStep.playwright ∉ (BrowserManager.stop_browser mgrPageCloseFails).2 := by
  refine ⟨rfl, ?_, ?_, ?_⟩ <;> decide

/-- C5 (amended): stop() runs the page, context, browser and engine closes in
order inside a single protected block: when every close succeeds all four
tracked resources are closed; but the closes are not independent — the first
failing close raises NavigationError immediately and the remaining closes are
not attempted. -/
theorem stop_browser_sequential_close
    (m1 m2 : BrowserManager)
    (p1 : PageHandle) (c1 : CtxModel) (b1 : BrowserModel) (e1 : EngineModel)
    (p2 : PageHandle) (msg : String)
    (h1 : m1.page? = some p1) (h2 : p1.closeR = PrimOutcome.ok ())
    (h3 : m1.context? = some c1) (h4 : c1.closeR = PrimOutcome.ok ())
    (h5 : m1.browser? = some b1) (h6 : b1.closeR = PrimOutcome.ok ())
    (h7 : m1.playwright? = some e1) (h8 : e1.stopR = PrimOutcome.ok ())
    (h9 : m2.page? = some p2) (h10 : p2.closeR = PrimOutcome.err msg) :
    BrowserManager.stop_browser m1
      = (Except.ok (), [CloseStep.page, CloseStep.context, CloseStep.browser,
                        CloseStep.playwright])
    ∧ BrowserManager.stop_browser m2
      = (Except.error (Exc.navigationError ("Failed to stop browser: " ++ msg)),
         [CloseStep.page]) := by
  constructor
  · simp [BrowserManager.stop_browser, BrowserManager.stop_step_context,
      BrowserManager.stop_step_browser, BrowserManager.stop_step_playwright,
      h1, h2, h3, h4, h5, h6, h7, h8]
  · simp [BrowserManager.stop_browser, stopFail, h9, h10]

/-- C5 witness: the amended statement instantiated at the all-succeeding
manager and at the manager whose page close fails. -/
theorem stop_browser_sequential_close_wit :
    BrowserManager.stop_browser mgrAllOk
      = (Except.ok (), [CloseStep.page, CloseStep.context, CloseStep.browser,
                        CloseStep.playwright])
    ∧ BrowserManager.stop_browser mgrPageCloseFails
      = (Except.error (Exc.navigationError ("Failed to stop browser: " ++ "boom")),
         [CloseStep.page]) :=
  stop_browser_sequential_close mgrAllOk mgrPageCloseFails pageHandleOk ctxOk
    browserOk engOk pageHandleBoom "boom" rfl rfl rfl rfl rfl rfl rfl rfl rfl rfl

/-- C6: assert_text resolves the element's text; when the text arrives within
the timeout but differs from the expected string the failed comparison is
recorded as a pytest_check soft check and the call returns without raising;
when the text resolution times out the call raises ActionFailed. -/
theorem assert_text_soft_mismatch_hard_timeout
    (bp1 : BasePage) (sel1 exp1 : String) (t1 : Nat) (w1 : World)
    (loc1 : LocatorModel) (a1 : Option String)
    (bp2 : BasePage) (sel2 exp2 : String) (t2 : Nat) (w2 : World)
    (loc2 : LocatorModel) (tm : String)
    (h1 : bp1.page.locatorR sel1 = PrimOutcome.ok loc1)
    (h2 : loc1.textContentR t1 = PrimOutcome.ok a1)
    (h3 : (a1 == some exp1) = false)
    (h4 : bp2.page.locatorR sel2 = PrimOutcome.ok loc2)
    (h5 : loc2.textContentR t2 = PrimOutcome.timeout tm) :
    (BasePage.assert_text bp1 sel1 exp1 t1 w1).1 = Except.ok ()
    ∧ ((BasePage.assert_text bp1 sel1 exp1 t1 w1).2).softChecks
        = w1.softChecks ++ [(false, assertFailMsg exp1 a1)]
    ∧ (BasePage.assert_text bp2 sel2 exp2 t2 w2).1
        = Except.error (Exc.actionFailed
            ("Timeout asserting text for selector: " ++ sel2)) := by
  refine ⟨?_, ?_, ?_⟩
  · unfold BasePage.assert_text
    rw [interceptor_fst]
    simp [BasePage.assert_text_body, h1, BasePage.assert_text_go, h2]
  · unfold BasePage.assert_text
    rw [interceptor_snd_ok]
    · simp [BasePage.assert_text_body, h1, BasePage.assert_text_go, h2, h3]
    · simp [BasePage.assert_text_body, h1, BasePage.assert_text_go, h2, okFlag]
  · unfold BasePage.assert_text
    rw [interceptor_fst]
    simp [BasePage.assert_text_body, h4, BasePage.assert_text_go, h5]

/-- C6 witness: on a page whose "#h" element holds text "X", asserting "Y"
returns without raising and records one failed soft check; on a page whose
text read times out, the call raises ActionFailed. -/
theorem assert_text_soft_mismatch_hard_timeout_wit :
    (BasePage.assert_text bpTextX "#h" "Y" 5 World.empty).1 = Except.ok ()
    ∧ ((BasePage.assert_text bpTextX "#h" "Y" 5 World.empty).2).softChecks
        = [(false, assertFailMsg "Y" (some "X"))]
    ∧ (BasePage.assert_text bpTextTimeout "#h" "Y" 5 World.empty).1
        = Except.error (Exc.actionFailed
            ("Timeout asserting text for selector: " ++ "#h")) := by
  have h := assert_text_soft_mismatch_hard_timeout bpTextX "#h" "Y" 5 World.empty
    locHeaderX (some "X") bpTextTimeout "#h" "Y" 5 World.empty
    locHeaderTimeout "t" rfl rfl (by decide) rfl rfl
  exact ⟨h.1, h.2.1, h.2.2⟩

/-- C7: when no context is tracked, new_page first auto-creates a default
context (new_context with no options) and creates the page inside it; when a
context is already tracked, new_page creates the page inside that context and
issues no context creation. -/
theorem new_page_auto_context
    (m1 : BrowserManager) (b : BrowserModel) (c : CtxModel) (p : PageHandle)
    (m2 : BrowserManager) (c2 : CtxModel) (p2 : PageHandle) (eff1 eff2 : MgrEff)
    (h1 : m1.context? = none) (h2 : m1.browser? = some b)
    (h3 : b.newContextR [] = PrimOutcome.ok c)
    (h4 : c.newPageR = PrimOutcome.ok p)
    (h5 : m2.context? = some c2) (h6 : c2.newPageR = PrimOutcome.ok p2) :
    (BrowserManager.new_page m1 eff1).1 = Except.ok p
    ∧ ((BrowserManager.new_page m1 eff1).2.1).context? = some c
    ∧ ((BrowserManager.new_page m1 eff1).2.1).page? = some p
    ∧ ((BrowserManager.new_page m1 eff1).2.2).ctxCreations = eff1.ctxCreations + 1
    ∧ (BrowserManager.new_page m2 eff2).1 = Except.ok p2
    ∧ ((BrowserManager.new_page m2 eff2).2.1).context? = some c2
    ∧ ((BrowserManager.new_page m2 eff2).2.2).ctxCreations = eff2.ctxCreations := by
  refine ⟨?_, ?_, ?_, ?_, ?_, ?_, ?_⟩ <;>
    simp [BrowserManager.new_page, BrowserManager.new_context,
      BrowserManager.new_page_go, h1, h2, h3, h4, h5, h6]

/-- C7 witness: the theorem instantiated at a started manager without a
context and at one already tracking a context. -/
theorem new_page_auto_context_wit :
    (BrowserManager.new_page mgrNoCtx eff0).1 = Except.ok pageHandleFresh
    ∧ ((BrowserManager.new_page mgrNoCtx eff0).2.1).context? = some ctxFresh
    ∧ ((BrowserManager.new_page mgrNoCtx eff0).2.2).ctxCreations = 1
    ∧ (BrowserManager.new_page mgrWithCtx eff0).1 = Except.ok pageHandleTracked
    ∧ ((BrowserManager.new_page mgrWithCtx eff0).2.2).ctxCreations = 0 := by
  have h := new_page_auto_context mgrNoCtx browserFresh ctxFresh pageHandleFresh
    mgrWithCtx ctxTracked pageHandleTracked eff0 eff0 rfl rfl rfl rfl rfl rfl
  exact ⟨h.1, h.2.1, h.2.2.2.1, h.2.2.2.2.1, h.2.2.2.2.2.2⟩

/-- C8 (counterexample): "screenshot" is in the supported operation set but
its signature has no timeout parameter at all, so it is not the case that
every listed Element operation accepts a timeout defaulting to 10000 ms. -/
theorem screenshot_no_default_timeout_cex :
    "screenshot" ∈ Element.valid_methods
    ∧ elementOpDefaultTimeout "screenshot" = none
    ∧ ¬ (∀ nm ∈ Element.valid_methods, elementOpDefaultTimeout nm = some 10000) := by
  refine ⟨by decide, rfl, ?_⟩
  intro hAll
  exact absurd (hAll "screenshot" (by decide)) (by decide)

/-- C8 (amended): every Element operation in the supported set other than
screenshot accepts an optional timeout parameter defaulting to 10000 ms;
screenshot's signature takes only a path and a full-page flag. -/
theorem element_ops_default_timeout (nm : String)
    (h1 : nm ∈ Element.valid_methods) (h2 : nm ≠ "screenshot") :
    elementOpDefaultTimeout nm = some 10000 := by
  fin_cases h1 <;> first | rfl | exact absurd rfl h2

/-- C8 witness: click's timeout defaults to 10000 ms. -/
theorem element_ops_default_timeout_wit :
    elementOpDefaultTimeout "click" = some 10000 :=
  element_ops_default_timeout "click" (by decide) (by decide)

/-- The propagated result of is_visible does not depend on the effect state
it is run in. -/
theorem is_visible_fst_world (el : Element) (t : Nat) (w w2 : World) :
    (Element.is_visible el t w).1 = (Element.is_visible el t w2).1 := by
  unfold Element.is_visible
  rw [interceptor_fst, interceptor_fst]
  unfold Element.is_visible_body
  cases el.locator.isVisibleR t <;> rfl

/-- C9: on an element whose underlying state is unchanged between the calls
(the same visibility oracle), running is_visible twice in sequence yields the
same result both times. -/
theorem is_visible_idempotent (el : Element) (t : Nat) (w : World) :
    (Element.is_visible el t ((Element.is_visible el t w).2)).1
      = (Element.is_visible el t w).1 :=
  is_visible_fst_world el t ((Element.is_visible el t w).2) w

/-- C10: an unsupported operation name raises AttributeError — a kind outside
the documented NotFound/ActionFailed/NavigationFailed taxonomy — and no
diagnostic screenshot capture is attempted, since this path never enters
screenshot_on_error. -/
theorem unsupported_name_attribute_error (suggest : String → Option String)
    (nm : String) (w : World) (h : nm ∉ Element.valid_methods) :
    (Element.getattrDispatch suggest nm w).1
      = Except.error (Exc.attributeError (unsupportedMsg suggest nm))
    ∧ Exc.inSpecTaxonomy (Exc.attributeError (unsupportedMsg suggest nm)) = false
    ∧ ((Element.getattrDispatch suggest nm w).2).errorShotAttempts
        = w.errorShotAttempts := by
  unfold Element.getattrDispatch
  rw [if_neg h]
  exact ⟨rfl, rfl, rfl⟩

/-- C10 witness: the unsupported name "frobnicate" (no close match) raises
AttributeError with the generic message and leaves the diagnostic-capture
count untouched. -/
theorem unsupported_name_attribute_error_wit :
    (Element.getattrDispatch suggNone "frobnicate" World.empty).1
      = Except.error (Exc.attributeError
          ("Element has no method '" ++ "frobnicate" ++ "'. "
            ++ "No similar method found."))
    ∧ ((Element.getattrDispatch suggNone "frobnicate" World.empty).2).errorShotAttempts
        = 0 := by
  have h := unsupported_name_attribute_error suggNone "frobnicate" World.empty
    (by decide)
  refine ⟨?_, h.2.2⟩
  rw [h.1]
  rfl

end PW
